import Mathlib

/-!
Shallow embedding of the Scintilla-Network wallet repository
(src/primitives/Wallet/Wallet.js, src/primitives/Account/Account.js,
src/primitives/Persona/Persona.js).

The repository is a thin orchestration layer over an external
keyring/cryptography collaborator. All external operations
(seed derivation, key derivation, signing, verification, encryption,
bech32 address encoding) are modelled symbolically as a free term
algebra: each external call constructs a term recording exactly the
arguments the repository passed to it. The dispatch, normalization and
precondition logic of the repository itself is translated faithfully,
including the JavaScript typeof-based branching.
-/

deriving instance DecidableEq for Except

/-- Symbolic byte sequences (JS Uint8Array values), a free algebra over
their observable origins: raw literal bytes, the result of the hex codec
(utils.hex.toUint8Array), the UTF-8 encoding of a string, or the seed
derived from a mnemonic phrase by the Mnemonic collaborator. -/
inductive Bytes where
  | raw (bytes : List Nat)
  | ofHex (s : String)
  | utf8 (s : String)
  | mnemonicSeed (phrase : String) (password : String)
deriving DecidableEq, Repr

/-- Model of utils.hex.toUint8Array from the keys collaborator. -/
def hexToUint8Array (s : String) : Bytes := Bytes.ofHex s

/-- Model of the Mnemonic collaborator: new Mnemonic(phrase). -/
structure Mnemonic where
  phrase : String
deriving DecidableEq, Repr

/-- mnemonic.toSeed(password) delegated to the external collaborator,
recorded symbolically. -/
def Mnemonic.toSeed (m : Mnemonic) (password : String) : Bytes :=
  Bytes.mnemonicSeed m.phrase password

/-- Seed keyring handle: SeedKeyring.fromSeed(bytes). -/
structure SeedKeyring where
  seed : Bytes
deriving DecidableEq, Repr

def SeedKeyring.fromSeed (bytes : Bytes) : SeedKeyring := ⟨bytes⟩

/-- Chain keyring handle: seedKeyring.getChainKeyring(coinType). -/
structure ChainKeyring where
  seedKeyring : SeedKeyring
  coinType : Nat
deriving DecidableEq, Repr

def SeedKeyring.getChainKeyring (sk : SeedKeyring) (coinType : Nat) : ChainKeyring :=
  ⟨sk, coinType⟩

/-- Account keyring handle: chainKeyring.getAccountKeyring(index). -/
structure AccountKeyring where
  chain : ChainKeyring
  index : Nat
deriving DecidableEq, Repr

def ChainKeyring.getAccountKeyring (ck : ChainKeyring) (index : Nat) : AccountKeyring :=
  ⟨ck, index⟩

/-- Persona keyring handle: accountKeyring.getPersonaKeyring(moniker). -/
structure PersonaKeyring where
  account : AccountKeyring
  moniker : String
deriving DecidableEq, Repr

def AccountKeyring.getPersonaKeyring (ak : AccountKeyring) (moniker : String) : PersonaKeyring :=
  ⟨ak, moniker⟩

def PersonaKeyring.getMoniker (pk : PersonaKeyring) : String := pk.moniker

/-- The parent handle an address keyring was derived from. -/
inductive AddressParent where
  | ofAccount (k : AccountKeyring)
  | ofPersona (k : PersonaKeyring)
deriving DecidableEq, Repr

/-- Address keyring handle: parent.getAddressKeyring(index, options).
The change component records the options object passed at the call
site: none when the repository passed no options object. -/
structure AddressKeyring where
  parent : AddressParent
  index : Nat
  change : Option Nat
deriving DecidableEq, Repr

def AccountKeyring.getAddressKeyring (ak : AccountKeyring) (index : Nat)
    (change : Option Nat) : AddressKeyring :=
  ⟨AddressParent.ofAccount ak, index, change⟩

def PersonaKeyring.getAddressKeyring (pk : PersonaKeyring) (index : Nat)
    (change : Option Nat) : AddressKeyring :=
  ⟨AddressParent.ofPersona pk, index, change⟩

/-- Bech32 address object: addressKeyring.getAddress(hrp). -/
structure Address where
  keyring : AddressKeyring
  hrp : String
deriving DecidableEq, Repr

def AddressKeyring.getAddress (ak : AddressKeyring) (hrp : String) : Address :=
  ⟨ak, hrp⟩

/-- Private key material handed out by a keyring handle. -/
inductive PrivateKey where
  | ofAccount (k : AccountKeyring)
  | ofPersona (k : PersonaKeyring)
deriving DecidableEq, Repr

def AccountKeyring.getPrivateKey (ak : AccountKeyring) : PrivateKey :=
  PrivateKey.ofAccount ak

def PersonaKeyring.getPrivateKey (pk : PersonaKeyring) : PrivateKey :=
  PrivateKey.ofPersona pk

/-- Signer collaborator: new Signer(privateKey, moniker?). The private
key slot is optional because JavaScript permits constructing a Signer
over an undefined key (new Signer(this.key?.getPrivateKey())). -/
structure Signer where
  privateKey : Option PrivateKey
  moniker : Option String
deriving DecidableEq, Repr

/-- Public key object: signer.getPublicKey(). -/
inductive PublicKey where
  | ofPrivate (k : Option PrivateKey)
deriving DecidableEq, Repr

def Signer.getPublicKey (s : Signer) : PublicKey :=
  PublicKey.ofPrivate s.privateKey

/-- Raw key material: publicKey.getKey(). -/
inductive RawKey where
  | ofPublic (k : PublicKey)
deriving DecidableEq, Repr

def PublicKey.getKey (pk : PublicKey) : RawKey := RawKey.ofPublic pk

/-- Signable-message wrapper from the keys collaborator; its one
observable field is the wrapped input bytes. -/
structure SignableMessage where
  input : Bytes
deriving DecidableEq, Repr

/-- SignableMessage.fromString wraps the UTF-8 encoding of the text. -/
def SignableMessage.fromString (s : String) : SignableMessage :=
  ⟨Bytes.utf8 s⟩

/-- A byte-like value passed to verification: either a byte sequence or
raw key material obtained from a public key object. -/
inductive ByteVal where
  | bytes (b : Bytes)
  | key (k : RawKey)
deriving DecidableEq, Repr

/-- Symbolic record of a delegated sign call and its arguments. -/
structure SignCall where
  signer : Signer
  message : SignableMessage
  options : Option String
deriving DecidableEq, Repr

def Signer.sign (s : Signer) (m : SignableMessage) (options : Option String) : SignCall :=
  ⟨s, m, options⟩

def SignableMessage.sign (m : SignableMessage) (s : Signer) (options : Option String) : SignCall :=
  ⟨s, m, options⟩

/-- Symbolic record of a delegated verify call and its arguments. -/
structure VerifyCall where
  message : SignableMessage
  signature : Bytes
  publicKey : ByteVal
  options : Option String
deriving DecidableEq, Repr

def SignableMessage.verify (m : SignableMessage) (sig : Bytes) (pk : ByteVal)
    (options : Option String) : VerifyCall :=
  ⟨m, sig, pk, options⟩

/-- Symbolic record of a delegated encrypt call and its arguments. -/
structure EncryptCall where
  message : SignableMessage
  signer : Signer
  options : Option String
deriving DecidableEq, Repr

def SignableMessage.encrypt (m : SignableMessage) (s : Signer)
    (options : Option String) : EncryptCall :=
  ⟨m, s, options⟩

/-- Symbolic record of a delegated decrypt call and its arguments. -/
structure DecryptCall where
  receiver : SignableMessage
  ciphertext : Bytes
  signer : Signer
  options : Option String
deriving DecidableEq, Repr

def SignableMessage.decrypt (m : SignableMessage) (ciphertext : Bytes) (s : Signer)
    (options : Option String) : DecryptCall :=
  ⟨m, ciphertext, s, options⟩

/-- The polymorphic message argument accepted by the sign, verify and
encrypt paths of Account and Persona: a JS value that is a string, a
Uint8Array, an object whose input field is present and truthy (the
shape of a SignableMessage), an object without a truthy input field,
a number, or null. -/
inductive MessageArg where
  | str (s : String)
  | uint8array (b : Bytes)
  | obj (input : Option Bytes)
  | num (n : Int)
  | nullV
deriving DecidableEq, Repr

/-- Re-inject a signable-message wrapper as a message argument: at
runtime it is an object carrying a (truthy) input field. -/
def SignableMessage.toArg (m : SignableMessage) : MessageArg :=
  MessageArg.obj (some m.input)

/-- A signature argument: hex string or raw bytes. -/
inductive SigArg where
  | str (s : String)
  | bytes (b : Bytes)
deriving DecidableEq, Repr

/-- A public-key argument to Persona.verify: hex string or raw bytes. -/
inductive PubKeyArg where
  | str (s : String)
  | bytes (b : Bytes)
deriving DecidableEq, Repr

/-- Persona façade object: the (possibly null) persona keyring and the
moniker read eagerly from it at construction. -/
structure Persona where
  key : Option PersonaKeyring
  moniker : String
deriving DecidableEq, Repr

namespace Persona

/-- Constructor for Persona: stores the keyring handle; the moniker is
personaKeyring?.getMoniker() ?? the empty string. -/
def ctor (personaKeyring : Option PersonaKeyring) : Persona :=
  { key := personaKeyring
    moniker := (personaKeyring.map PersonaKeyring.getMoniker).getD "" }

def getMoniker (p : Persona) : String := p.moniker

/-- getAddressKeyring(index, isChange): this.key?.getAddressKeyring(index,
with change mapped to 1 for true and 0 for false) ?? null. -/
def getAddressKeyring (p : Persona) (index : Nat) (isChange : Bool) : Option AddressKeyring :=
  p.key.map (fun k => k.getAddressKeyring index (some (if isChange then 1 else 0)))

/-- getAddress(index, isChange): this.key?.getAddressKeyring(index,
change).getAddress("sct") ?? null. -/
def getAddress (p : Persona) (index : Nat) (isChange : Bool) : Option Address :=
  p.key.map (fun k =>
    (k.getAddressKeyring index (some (if isChange then 1 else 0))).getAddress "sct")

/-- getSigner(): throws when the persona keyring is absent, otherwise
constructs a fresh Signer over the persona private key tagged with the
cached moniker. -/
def getSigner (p : Persona) : Except String Signer :=
  match p.key with
  | none => Except.error "Persona keyring is required."
  | some k => Except.ok ⟨some k.getPrivateKey, some p.moniker⟩

/-- parseMessage: string to SignableMessage.fromString, Uint8Array
wrapped directly, object with truthy input field passed through,
anything else throws. -/
def parseMessage (message : MessageArg) : Except String SignableMessage :=
  match message with
  | MessageArg.str s => Except.ok (SignableMessage.fromString s)
  | MessageArg.uint8array b => Except.ok ⟨b⟩
  | MessageArg.obj (some b) => Except.ok ⟨b⟩
  | _ => Except.error "Invalid message type"

/-- sign(message, options): getSigner (throwing without a keyring),
parse the message, delegate signableMessage.sign(signer, options).
The subsequent null check on the signer in the source is unreachable
because getSigner either throws or returns an object. -/
def sign (p : Persona) (message : MessageArg) (options : Option String) :
    Except String SignCall :=
  match p.getSigner with
  | Except.error e => Except.error e
  | Except.ok signer =>
    match parseMessage message with
    | Except.error e => Except.error e
    | Except.ok m => Except.ok (m.sign signer options)

/-- verify(signature, message, publicKey, options): hex-decode the
signature and public key when given as strings, parse the message,
delegate signableMessage.verify. -/
def verify (p : Persona) (signature : SigArg) (message : MessageArg)
    (publicKey : PubKeyArg) (options : Option String) : Except String VerifyCall :=
  let sigBytes := match signature with
    | SigArg.str s => hexToUint8Array s
    | SigArg.bytes b => b
  let pkBytes := match publicKey with
    | PubKeyArg.str s => hexToUint8Array s
    | PubKeyArg.bytes b => b
  match parseMessage message with
  | Except.error e => Except.error e
  | Except.ok m => Except.ok (m.verify sigBytes (ByteVal.bytes pkBytes) options)

/-- encrypt(message, options): getSigner, parse, delegate
signableMessage.encrypt(signer, options). -/
def encrypt (p : Persona) (message : MessageArg) (options : Option String) :
    Except String EncryptCall :=
  match p.getSigner with
  | Except.error e => Except.error e
  | Except.ok signer =>
    match parseMessage message with
    | Except.error e => Except.error e
    | Except.ok m => Except.ok (m.encrypt signer options)

/-- decrypt(message, options): getSigner, then delegate
new SignableMessage(new Uint8Array()).decrypt(message, signer, options). -/
def decrypt (p : Persona) (message : Bytes) (options : Option String) :
    Except String DecryptCall :=
  match p.getSigner with
  | Except.error e => Except.error e
  | Except.ok signer =>
    Except.ok ((SignableMessage.mk (Bytes.raw [])).decrypt message signer options)

end Persona

/-- Account façade object: the (possibly null) account keyring and the
(possibly null) cached signer. -/
structure Account where
  key : Option AccountKeyring
  signer : Option Signer
deriving DecidableEq, Repr

namespace Account

/-- Constructor for Account: stores the keyring, throws when it is
absent, otherwise caches new Signer(accountKeyring.getPrivateKey()). -/
def ctor (accountKeyring : Option AccountKeyring) : Except String Account :=
  match accountKeyring with
  | none => Except.error "AccountKeyring is required"
  | some k => Except.ok { key := some k, signer := some ⟨some k.getPrivateKey, none⟩ }

/-- getPersona(moniker): new Persona(this.key?.getPersonaKeyring(moniker)). -/
def getPersona (a : Account) (moniker : String) : Persona :=
  Persona.ctor (a.key.map (fun k => k.getPersonaKeyring moniker))

/-- parseMessage: textually identical to Persona.parseMessage in the
source. -/
def parseMessage (message : MessageArg) : Except String SignableMessage :=
  match message with
  | MessageArg.str s => Except.ok (SignableMessage.fromString s)
  | MessageArg.uint8array b => Except.ok ⟨b⟩
  | MessageArg.obj (some b) => Except.ok ⟨b⟩
  | _ => Except.error "Invalid message type"

/-- sign(message, options): throws when the cached signer is null,
parses the message, delegates this.signer.sign(signableMessage,
options). -/
def sign (a : Account) (message : MessageArg) (options : Option String) :
    Except String SignCall :=
  match a.signer with
  | none => Except.error "Signer not initialized"
  | some signer =>
    match parseMessage message with
    | Except.error e => Except.error e
    | Except.ok m => Except.ok (signer.sign m options)

/-- verify(signature, message, options): throws when the cached signer
is null, hex-decodes a string signature, obtains the public key from
the cached signer, parses the message and delegates
signableMessage.verify(signature, publicKey, options). -/
def verify (a : Account) (signature : SigArg) (message : MessageArg)
    (options : Option String) : Except String VerifyCall :=
  match a.signer with
  | none => Except.error "Signer not initialized"
  | some signer =>
    let sigBytes := match signature with
      | SigArg.str s => hexToUint8Array s
      | SigArg.bytes b => b
    let publicKey := signer.getPublicKey.getKey
    match parseMessage message with
    | Except.error e => Except.error e
    | Except.ok m => Except.ok (m.verify sigBytes (ByteVal.key publicKey) options)

/-- toAddress(hrp): this.key?.getAddressKeyring(0).getAddress(hrp) ??
null; the account passes no options object to getAddressKeyring. -/
def toAddress (a : Account) (hrp : String) : Option Address :=
  a.key.map (fun k => (k.getAddressKeyring 0 none).getAddress hrp)

/-- JS truthiness of the moniker argument of getSigner: null and the
empty string are falsy. -/
def monikerTruthy : Option String → Bool
  | none => false
  | some s => !s.isEmpty

/-- getSigner(moniker, type): with a truthy moniker, constructs
new Signer(this.key?.getPrivateKey()) — over the account base key, with
no persona- or kind-specific derivation (the derivation call is
commented out in the source); otherwise returns the cached signer. The
type argument is unused by the active implementation. -/
def getSigner (a : Account) (moniker : Option String) (kind : String) : Option Signer :=
  if monikerTruthy moniker then
    some ⟨a.key.map AccountKeyring.getPrivateKey, none⟩
  else
    a.signer

/-- encrypt(message, options): this.getSigner() with default arguments,
throws when it yields null, parses the message and delegates
signableMessage.encrypt(signer, options). -/
def encrypt (a : Account) (message : MessageArg) (options : Option String) :
    Except String EncryptCall :=
  match a.getSigner none "persona.spender" with
  | none => Except.error "Signer is required."
  | some signer =>
    match parseMessage message with
    | Except.error e => Except.error e
    | Except.ok m => Except.ok (m.encrypt signer options)

end Account

/-- The runtime shapes a Wallet construction input can take: a string,
a Uint8Array, an object with a phrase field, an object whose
chainKeyring field may or may not be present and truthy, a number, or
null. -/
inductive WalletInput where
  | str (s : String)
  | uint8array (b : Bytes)
  | phraseRecord (phrase : String)
  | chainKeyringObj (chainKeyring : Option ChainKeyring)
  | num (n : Int)
  | nullV
deriving DecidableEq, Repr

/-- The JavaScript typeof operator on a Wallet input value. A
Uint8Array, a plain object and null all have typeof "object". -/
def jsTypeof : WalletInput → String
  | WalletInput.str _ => "string"
  | WalletInput.uint8array _ => "object"
  | WalletInput.phraseRecord _ => "object"
  | WalletInput.chainKeyringObj _ => "object"
  | WalletInput.num _ => "number"
  | WalletInput.nullV => "object"

/-- JS truthiness of a Wallet input value: null, the empty string and
zero are falsy; every object is truthy. -/
def walletInputTruthy : WalletInput → Bool
  | WalletInput.str s => !s.isEmpty
  | WalletInput.num n => n != 0
  | WalletInput.nullV => false
  | _ => true

/-- The value of input?.chainKeyring when truthy, none otherwise. -/
def WalletInput.chainKeyringField : WalletInput → Option ChainKeyring
  | WalletInput.chainKeyringObj c => c
  | _ => none

/-- JS String.prototype.split with the single-character separator " ",
on the character list of the string: the empty list gives one empty
chunk, every space starts a new chunk, and consecutive spaces produce
empty chunks, exactly as in JavaScript. -/
def jsSplitSpaceChars : List Char → List String
  | [] => [""]
  | c :: cs =>
    let rest := jsSplitSpaceChars cs
    if c = ' ' then "" :: rest
    else (String.singleton c ++ rest.headD "") :: rest.tail

/-- input.split(" ") from the source, via the character list. -/
def jsSplitSpace (s : String) : List String := jsSplitSpaceChars s.data

/-- The seed argument of Wallet.fromSeed: Uint8Array or hex string. -/
inductive SeedArg where
  | str (s : String)
  | bytes (b : Bytes)
deriving DecidableEq, Repr

/-- Wallet façade object: holds the chain keyring handle (nullable in
the source type declaration). -/
structure Wallet where
  chainKeyring : Option ChainKeyring
deriving DecidableEq, Repr

namespace Wallet

/-- fromSeed(seedInput, coinType): hex-decode a string seed, build the
seed keyring and chain keyring through the collaborator, then
new Wallet(an object holding chainKeyring, coinType). The constructor
(Wallet.ctor below) stores a truthy chainKeyring field directly; that
final step is inlined here to keep the definitions non-recursive, and
the lemma ctor_chainKeyring below checks the two agree. -/
def fromSeed (seedInput : SeedArg) (coinType : Nat) : Wallet :=
  let seedBytes := match seedInput with
    | SeedArg.str s => hexToUint8Array s
    | SeedArg.bytes b => b
  let seedKeyring := SeedKeyring.fromSeed seedBytes
  let chainKeyring := seedKeyring.getChainKeyring coinType
  { chainKeyring := some chainKeyring }

/-- fromMnemonic(mnemonicInput, coinType): new Mnemonic(mnemonicInput),
then Wallet.fromSeed(mnemonic.toSeed(), coinType); toSeed is called
with its default (empty) password. -/
def fromMnemonic (mnemonicInput : String) (coinType : Nat) : Wallet :=
  let mnemonic : Mnemonic := ⟨mnemonicInput⟩
  fromSeed (SeedArg.bytes (mnemonic.toSeed "")) coinType

/-- fromArbitraryInput(input, coinType): switch on typeof input. A
string splits on a single space and is a mnemonic when that yields more
than one part, else a seed. The case labelled "Uint8Array" mirrors the
source switch literally; it is dead because typeof never evaluates to
that string. Everything else falls to the default and throws. -/
def fromArbitraryInput (input : WalletInput) (coinType : Nat) : Except String Wallet :=
  if jsTypeof input = "string" then
    match input with
    | WalletInput.str s =>
      let isMnemonic := (jsSplitSpace s).length > 1
      if isMnemonic then
        Except.ok (fromMnemonic s coinType)
      else
        Except.ok (fromSeed (SeedArg.str s) coinType)
    | _ => Except.error "unreachable: typeof is string only for strings"
  else if jsTypeof input = "Uint8Array" then
    match input with
    | WalletInput.uint8array b => Except.ok (fromSeed (SeedArg.bytes b) coinType)
    | _ => Except.error "unreachable: dead switch arm"
  else
    Except.error "Use Wallet.create() to create a new wallet with a newly generated mnemonic."

/-- Constructor for Wallet: when input?.chainKeyring is falsy the
construction is replaced by the result of fromArbitraryInput (a JS
constructor returning an object overrides the instance); otherwise the
chainKeyring field is stored. -/
def ctor (input : WalletInput) (coinType : Nat) : Except String Wallet :=
  match input.chainKeyringField with
  | none => fromArbitraryInput input coinType
  | some ck => Except.ok { chainKeyring := some ck }

/-- create(input, coinType): when input is absent or falsy, a fresh
random mnemonic is generated by the external collaborator and used in
its place; randomness is not modelled, so the generated phrase is
supplied as the generated argument. Then fromArbitraryInput. -/
def create (generated : String) (input : Option WalletInput) (coinType : Nat) :
    Except String Wallet :=
  let inp := match input with
    | none => WalletInput.str generated
    | some i => if walletInputTruthy i then i else WalletInput.str generated
  fromArbitraryInput inp coinType

/-- getAccount(accountIndex): derive the account keyring from the chain
keyring (throwing when the chain keyring is null) and wrap it in a new
Account. -/
def getAccount (w : Wallet) (accountIndex : Nat) : Except String Account :=
  match w.chainKeyring with
  | none => Except.error "Account keyring is required."
  | some ck => Account.ctor (some (ck.getAccountKeyring accountIndex))

end Wallet

/-- The BIP39 test mnemonic used throughout the repository test suite. -/
def defaultMnemonic : String :=
  "abandon abandon abandon abandon abandon abandon abandon abandon abandon abandon abandon about"

/-- A concrete account keyring used to instantiate witnesses. -/
def demoAccountKeyring : AccountKeyring :=
  ((SeedKeyring.fromSeed (Bytes.mnemonicSeed defaultMnemonic "")).getChainKeyring 8888).getAccountKeyring 0

/-- The account the constructor builds over demoAccountKeyring. -/
def demoAccount : Account :=
  { key := some demoAccountKeyring
    signer := some ⟨some demoAccountKeyring.getPrivateKey, none⟩ }

/-- A concrete persona keyring used to instantiate witnesses. -/
def demoPersonaKeyring : PersonaKeyring :=
  demoAccountKeyring.getPersonaKeyring "test-validator"

/-- The Wallet constructor applied to an object with a truthy
chainKeyring field stores that handle directly, matching the inlined
final step of fromSeed. -/
lemma Wallet.ctor_chainKeyring (ck : ChainKeyring) (coinType : Nat) :
    Wallet.ctor (WalletInput.chainKeyringObj (some ck)) coinType =
      Except.ok { chainKeyring := some ck } := rfl

/-- The split produced by jsSplitSpaceChars is never empty. -/
lemma jsSplitSpaceChars_ne_nil (cs : List Char) : jsSplitSpaceChars cs ≠ [] := by
  cases cs with
  | nil => simp [jsSplitSpaceChars]
  | cons c cs => simp only [jsSplitSpaceChars]; split <;> simp

/-- The number of chunks is the number of spaces plus one. -/
lemma jsSplitSpaceChars_length (cs : List Char) :
    (jsSplitSpaceChars cs).length = cs.countP (fun c => c == ' ') + 1 := by
  induction cs with
  | nil => rfl
  | cons c cs ih =>
    simp only [jsSplitSpaceChars]
    by_cases hc : c = ' '
    · simp [hc, List.countP_cons, ih]
    · have hb : (c == ' ') = false := by simp [hc]
      simp only [if_neg hc, List.length_cons, List.length_tail, ih,
        List.countP_cons, hb, if_false]
      simp

/-- A string splits into more than one chunk iff it contains a space. -/
lemma jsSplitSpace_length_gt_one (s : String) :
    (jsSplitSpace s).length > 1 ↔ ' ' ∈ s.data := by
  unfold jsSplitSpace
  rw [jsSplitSpaceChars_length]
  constructor
  · intro h
    have hpos : 0 < s.data.countP (fun c => c == ' ') := by omega
    rcases List.countP_pos.mp hpos with ⟨a, ha, hp⟩
    have : a = ' ' := by simpa using hp
    simpa [this] using ha
  · intro h
    have hpos : 0 < s.data.countP (fun c => c == ' ') :=
      List.countP_pos.mpr ⟨' ', h, by simp⟩
    omega

/-- C1: Wallet.fromArbitraryInput dispatches space-containing strings
to fromMnemonic and other strings to fromSeed, and throws on numbers,
plain objects and null; but contrary to the claim, a Uint8Array is NOT
routed to fromSeed: typeof yields "object" for it, the switch arm
labelled "Uint8Array" is dead, and the input falls to the default
branch and throws. The last conjunct evaluates the failing input of a
concrete Uint8Array of bytes 1, 2, 3 with coinType 8888. -/
theorem c1_fromArbitraryInput_uint8array_throws :
    (∀ (s : String) (ct : Nat),
      Wallet.fromArbitraryInput (WalletInput.str s) ct =
        Except.ok (if ' ' ∈ s.data then Wallet.fromMnemonic s ct
          else Wallet.fromSeed (SeedArg.str s) ct)) ∧
    (∀ b : Bytes, jsTypeof (WalletInput.uint8array b) = "object") ∧
    (∀ (b : Bytes) (ct : Nat),
      Wallet.fromArbitraryInput (WalletInput.uint8array b) ct =
        Except.error "Use Wallet.create() to create a new wallet with a newly generated mnemonic.") ∧
    (∀ (n : Int) (ct : Nat),
      Wallet.fromArbitraryInput (WalletInput.num n) ct =
        Except.error "Use Wallet.create() to create a new wallet with a newly generated mnemonic.") ∧
    (∀ (ph : String) (ct : Nat),
      Wallet.fromArbitraryInput (WalletInput.phraseRecord ph) ct =
        Except.error "Use Wallet.create() to create a new wallet with a newly generated mnemonic.") ∧
    (∀ ct : Nat,
      Wallet.fromArbitraryInput WalletInput.nullV ct =
        Except.error "Use Wallet.create() to create a new wallet with a newly generated mnemonic.") ∧
    Wallet.fromArbitraryInput (WalletInput.uint8array (Bytes.raw [1, 2, 3])) 8888 =
      Except.error "Use Wallet.create() to create a new wallet with a newly generated mnemonic." := by
  refine ⟨?_, fun b => rfl, fun b ct => rfl, fun n ct => rfl, fun ph ct => rfl, fun ct => rfl, rfl⟩
  intro s ct
  show (if (jsSplitSpace s).length > 1 then _ else _) = _
  by_cases h : ' ' ∈ s.data
  · rw [if_pos ((jsSplitSpace_length_gt_one s).mpr h), if_pos h]
  · rw [if_neg (fun hc => h ((jsSplitSpace_length_gt_one s).mp hc)), if_neg h]

/-- C2: for an account built over a keyring, getSigner with any moniker
string and any kind yields the signer over the account keyring base
private key, untagged and with no persona- or kind-specific derivation;
this is the very value cached at construction, and with no moniker the
cached signer itself is returned. -/
theorem c2_account_getSigner_base_key :
    ∀ (k : AccountKeyring) (acc : Account), Account.ctor (some k) = Except.ok acc →
      (∀ (m kind : String),
        acc.getSigner (some m) kind = some ⟨some k.getPrivateKey, none⟩) ∧
      (∀ kind : String, acc.getSigner none kind = acc.signer) ∧
      acc.signer = some ⟨some k.getPrivateKey, none⟩ := by
  intro k acc h
  simp only [Account.ctor, Except.ok.injEq] at h
  subst h
  refine ⟨?_, fun kind => rfl, rfl⟩
  intro m kind
  unfold Account.getSigner
  by_cases hm : m.isEmpty
  · simp [Account.monikerTruthy, hm]
  · simp [Account.monikerTruthy, hm]

/-- Witness for C2 at a concrete account keyring and moniker. -/
theorem c2_account_getSigner_base_key_witness :
    Account.ctor (some demoAccountKeyring) = Except.ok demoAccount ∧
    demoAccount.getSigner (some "test-validator") "persona.spender" =
      some ⟨some demoAccountKeyring.getPrivateKey, none⟩ :=
  ⟨rfl, (c2_account_getSigner_base_key demoAccountKeyring demoAccount rfl).1
    "test-validator" "persona.spender"⟩

/-- C3: for an account built over a keyring, verify decodes a hex
string signature to bytes, and always verifies against the public key
of the cached signer, never a caller-supplied key. -/
theorem c3_account_verify_own_key :
    ∀ (k : AccountKeyring) (acc : Account) (sg : Signer),
      Account.ctor (some k) = Except.ok acc → acc.signer = some sg →
      ∀ (msg : MessageArg) (m : SignableMessage) (opts : Option String),
        Account.parseMessage msg = Except.ok m →
        (∀ hs : String,
          acc.verify (SigArg.str hs) msg opts =
            Except.ok (m.verify (hexToUint8Array hs)
              (ByteVal.key sg.getPublicKey.getKey) opts)) ∧
        (∀ b : Bytes,
          acc.verify (SigArg.bytes b) msg opts =
            Except.ok (m.verify b (ByteVal.key sg.getPublicKey.getKey) opts)) := by
  intro k acc sg hctor hsg msg m opts hparse
  simp only [Account.ctor, Except.ok.injEq] at hctor
  subst hctor
  simp only [Option.some.injEq] at hsg
  subst hsg
  constructor <;> intro x <;> simp [Account.verify, hparse]

/-- Witness for C3 at a concrete account, hex signature and message. -/
theorem c3_account_verify_own_key_witness :
    Account.parseMessage (MessageArg.str "Hello, World!") =
      Except.ok (SignableMessage.fromString "Hello, World!") ∧
    demoAccount.verify (SigArg.str "aa11") (MessageArg.str "Hello, World!") none =
      Except.ok ((SignableMessage.fromString "Hello, World!").verify
        (hexToUint8Array "aa11")
        (ByteVal.key (Signer.getPublicKey ⟨some demoAccountKeyring.getPrivateKey, none⟩).getKey)
        none) :=
  ⟨rfl, (c3_account_verify_own_key demoAccountKeyring demoAccount
    ⟨some demoAccountKeyring.getPrivateKey, none⟩ rfl rfl
    (MessageArg.str "Hello, World!") (SignableMessage.fromString "Hello, World!")
    none rfl).1 "aa11"⟩

/-- C4: the shared normalization maps a string to the wrapper of its
UTF-8 encoding, wraps bytes directly, passes an object with a truthy
input field through, and throws on everything else; Account and
Persona implement it identically; and every sign, verify and encrypt
path of both factors through it before delegating. -/
theorem c4_parseMessage_contract :
    (∀ msg : MessageArg, Persona.parseMessage msg = Account.parseMessage msg) ∧
    (∀ s : String, Account.parseMessage (MessageArg.str s) =
      Except.ok ⟨Bytes.utf8 s⟩) ∧
    (∀ b : Bytes, Account.parseMessage (MessageArg.uint8array b) = Except.ok ⟨b⟩) ∧
    (∀ b : Bytes, Account.parseMessage (MessageArg.obj (some b)) = Except.ok ⟨b⟩) ∧
    (Account.parseMessage (MessageArg.obj none) = Except.error "Invalid message type") ∧
    (∀ n : Int, Account.parseMessage (MessageArg.num n) = Except.error "Invalid message type") ∧
    (Account.parseMessage MessageArg.nullV = Except.error "Invalid message type") ∧
    (∀ (a : Account) (sg : Signer), a.signer = some sg →
      ∀ (msg : MessageArg) (o : Option String),
        a.sign msg o = (Account.parseMessage msg).map (fun m => sg.sign m o) ∧
        a.encrypt msg o = (Account.parseMessage msg).map (fun m => m.encrypt sg o) ∧
        (∀ sig : SigArg, a.verify sig msg o = (Account.parseMessage msg).map
          (fun m => m.verify
            (match sig with
              | SigArg.str s => hexToUint8Array s
              | SigArg.bytes b => b)
            (ByteVal.key sg.getPublicKey.getKey) o))) ∧
    (∀ (p : Persona) (k : PersonaKeyring), p.key = some k →
      ∀ (msg : MessageArg) (o : Option String),
        p.sign msg o = (Persona.parseMessage msg).map
          (fun m => m.sign ⟨some k.getPrivateKey, some p.moniker⟩ o) ∧
        p.encrypt msg o = (Persona.parseMessage msg).map
          (fun m => m.encrypt ⟨some k.getPrivateKey, some p.moniker⟩ o)) ∧
    (∀ (p : Persona) (sig : SigArg) (msg : MessageArg) (pk : PubKeyArg) (o : Option String),
      p.verify sig msg pk o = (Persona.parseMessage msg).map
        (fun m => m.verify
          (match sig with
            | SigArg.str s => hexToUint8Array s
            | SigArg.bytes b => b)
          (ByteVal.bytes (match pk with
            | PubKeyArg.str s => hexToUint8Array s
            | PubKeyArg.bytes b => b)) o)) := by
  refine ⟨?_, fun s => rfl, fun b => rfl, fun b => rfl, rfl, fun n => rfl, rfl, ?_, ?_, ?_⟩
  · intro msg
    cases msg with
    | str s => rfl
    | uint8array b => rfl
    | obj o => cases o <;> rfl
    | num n => rfl
    | nullV => rfl
  · intro a sg hsg msg o
    refine ⟨?_, ?_, ?_⟩
    · cases hp : Account.parseMessage msg <;> simp [Account.sign, hsg, hp, Except.map]
    · cases hp : Account.parseMessage msg <;>
        simp [Account.encrypt, Account.getSigner, Account.monikerTruthy, hsg, hp, Except.map]
    · intro sig
      cases hp : Account.parseMessage msg <;> simp [Account.verify, hsg, hp, Except.map]
  · intro p k hk msg o
    constructor
    · cases hp : Persona.parseMessage msg <;>
        simp [Persona.sign, Persona.getSigner, hk, hp, Except.map]
    · cases hp : Persona.parseMessage msg <;>
        simp [Persona.encrypt, Persona.getSigner, hk, hp, Except.map]
  · intro p sig msg pk o
    cases hp : Persona.parseMessage msg <;> simp [Persona.verify, hp, Except.map]

/-- Witness for C4 at a concrete account, message and option set. -/
theorem c4_parseMessage_contract_witness :
    demoAccount.signer = some ⟨some demoAccountKeyring.getPrivateKey, none⟩ ∧
    demoAccount.sign (MessageArg.str "Hello, World!") none =
      Except.ok (Signer.sign ⟨some demoAccountKeyring.getPrivateKey, none⟩
        (SignableMessage.fromString "Hello, World!") none) :=
  ⟨rfl, by
    have h := (c4_parseMessage_contract.2.2.2.2.2.2.2.1 demoAccount
      ⟨some demoAccountKeyring.getPrivateKey, none⟩ rfl
      (MessageArg.str "Hello, World!") none).1
    simpa using h⟩

/-- C5: a Persona constructed without a keyring throws from getSigner
(and hence from sign, encrypt and decrypt) and returns null from
getAddressKeyring and getAddress; with a keyring, getSigner builds a
fresh Signer over the persona private key tagged with the persona
moniker, and getAddress maps the change flag to one or zero and uses
the fixed bech32 human-readable part "sct". -/
theorem c5_persona_preconditions :
    ((Persona.ctor none).getSigner = Except.error "Persona keyring is required.") ∧
    (∀ (msg : MessageArg) (o : Option String),
      (Persona.ctor none).sign msg o = Except.error "Persona keyring is required.") ∧
    (∀ (msg : MessageArg) (o : Option String),
      (Persona.ctor none).encrypt msg o = Except.error "Persona keyring is required.") ∧
    (∀ (b : Bytes) (o : Option String),
      (Persona.ctor none).decrypt b o = Except.error "Persona keyring is required.") ∧
    (∀ (i : Nat) (c : Bool), (Persona.ctor none).getAddressKeyring i c = none) ∧
    (∀ (i : Nat) (c : Bool), (Persona.ctor none).getAddress i c = none) ∧
    (∀ k : PersonaKeyring, (Persona.ctor (some k)).getSigner =
      Except.ok ⟨some k.getPrivateKey, some k.getMoniker⟩) ∧
    (∀ (k : PersonaKeyring) (i : Nat) (c : Bool),
      (Persona.ctor (some k)).getAddressKeyring i c =
        some (k.getAddressKeyring i (some (if c then 1 else 0)))) ∧
    (∀ (k : PersonaKeyring) (i : Nat) (c : Bool),
      (Persona.ctor (some k)).getAddress i c =
        some ((k.getAddressKeyring i (some (if c then 1 else 0))).getAddress "sct")) :=
  ⟨rfl, fun msg o => rfl, fun msg o => rfl, fun b o => rfl, fun i c => rfl,
    fun i c => rfl, fun k => rfl, fun k i c => rfl, fun k i c => rfl⟩

/-- C6: the mnemonic path of Wallet construction literally factors
through the seed path applied to the seed derived from the phrase, so
the two wallets and their account-0 addresses coincide. -/
theorem c6_mnemonic_seed_paths_converge :
    ∀ (phrase : String) (ct : Nat),
      Wallet.fromMnemonic phrase ct =
        Wallet.fromSeed (SeedArg.bytes ((Mnemonic.mk phrase).toSeed "")) ct ∧
      ((Wallet.fromMnemonic phrase ct).getAccount 0).map (fun a => a.toAddress "sct") =
        ((Wallet.fromSeed (SeedArg.bytes ((Mnemonic.mk phrase).toSeed "")) ct).getAccount 0).map
          (fun a => a.toAddress "sct") :=
  fun phrase ct => ⟨rfl, rfl⟩

/-- C7: constructing a Wallet from an object with a phrase field does
NOT succeed: the constructor sees no chainKeyring field and delegates
to fromArbitraryInput, where typeof of the record is "object" and the
default branch throws. The other documented construction inputs — a
mnemonic string and an already-built chain keyring handle — do
succeed. -/
theorem c7_wallet_ctor_phrase_record_throws :
    Wallet.ctor (WalletInput.phraseRecord defaultMnemonic) 8888 =
      Except.error "Use Wallet.create() to create a new wallet with a newly generated mnemonic." ∧
    (∀ (ph : String) (ct : Nat),
      Wallet.ctor (WalletInput.phraseRecord ph) ct =
        Except.error "Use Wallet.create() to create a new wallet with a newly generated mnemonic.") ∧
    Wallet.ctor (WalletInput.str defaultMnemonic) 8888 =
      Except.ok (Wallet.fromMnemonic defaultMnemonic 8888) ∧
    (∀ ck : ChainKeyring, Wallet.ctor (WalletInput.chainKeyringObj (some ck)) 8888 =
      Except.ok ⟨some ck⟩) := by
  refine ⟨rfl, fun ph ct => rfl, ?_, fun ck => rfl⟩
  have hsp : ' ' ∈ defaultMnemonic.data := by decide
  have hgt := (jsSplitSpace_length_gt_one defaultMnemonic).mpr hsp
  show Wallet.fromArbitraryInput (WalletInput.str defaultMnemonic) 8888 = _
  simp [Wallet.fromArbitraryInput, jsTypeof, hgt]

/-- C8: the normalization is idempotent on its own output: feeding the
wrapper it returns back in (as the runtime object with a truthy input
field) reproduces it unchanged, for both copies of parseMessage. -/
theorem c8_parseMessage_idempotent :
    (∀ m : SignableMessage, Account.parseMessage m.toArg = Except.ok m) ∧
    (∀ m : SignableMessage, Persona.parseMessage m.toArg = Except.ok m) ∧
    (∀ (arg : MessageArg) (m : SignableMessage),
      Account.parseMessage arg = Except.ok m →
      Account.parseMessage m.toArg = Account.parseMessage arg) ∧
    (∀ (arg : MessageArg) (m : SignableMessage),
      Persona.parseMessage arg = Except.ok m →
      Persona.parseMessage m.toArg = Persona.parseMessage arg) := by
  refine ⟨fun m => rfl, fun m => rfl, ?_, ?_⟩ <;>
    · intro arg m h
      rw [h]
      rfl

/-- Witness for C8 at a concrete plain-text message. -/
theorem c8_parseMessage_idempotent_witness :
    Account.parseMessage (MessageArg.str "hello") =
      Except.ok (SignableMessage.fromString "hello") ∧
    Account.parseMessage (SignableMessage.fromString "hello").toArg =
      Account.parseMessage (MessageArg.str "hello") :=
  ⟨rfl, c8_parseMessage_idempotent.2.2.1 (MessageArg.str "hello")
    (SignableMessage.fromString "hello") rfl⟩

/-- The only error the normalization throws is the invalid-message-type
one. -/
lemma parseMessage_error_string (msg : MessageArg) (e : String)
    (h : Account.parseMessage msg = Except.error e) : e = "Invalid message type" := by
  cases msg with
  | str s => simp [Account.parseMessage] at h
  | uint8array b => simp [Account.parseMessage] at h
  | obj o =>
    cases o with
    | some b => simp [Account.parseMessage] at h
    | none =>
      simp only [Account.parseMessage, Except.error.injEq] at h
      exact h.symm
  | num n =>
    simp only [Account.parseMessage, Except.error.injEq] at h
    exact h.symm
  | nullV =>
    simp only [Account.parseMessage, Except.error.injEq] at h
    exact h.symm

/-- C9: every successfully constructed Account stores the keyring it
was given and a cached signer over that keyring base private key, so
the signer-not-initialized branches of sign and verify are unreachable
and toAddress never yields null. -/
theorem c9_account_ctor_invariants :
    ∀ (inp : Option AccountKeyring) (acc : Account),
      Account.ctor inp = Except.ok acc →
      acc.key.isSome = true ∧
      (∃ k : AccountKeyring, inp = some k ∧ acc.key = some k ∧
        acc.signer = some ⟨some k.getPrivateKey, none⟩) ∧
      (∀ (msg : MessageArg) (o : Option String),
        acc.sign msg o ≠ Except.error "Signer not initialized") ∧
      (∀ (sig : SigArg) (msg : MessageArg) (o : Option String),
        acc.verify sig msg o ≠ Except.error "Signer not initialized") ∧
      (∀ hrp : String, (acc.toAddress hrp).isSome = true) := by
  intro inp acc h
  cases inp with
  | none => simp [Account.ctor] at h
  | some k =>
    simp only [Account.ctor, Except.ok.injEq] at h
    subst h
    refine ⟨rfl, ⟨k, rfl, rfl, rfl⟩, ?_, ?_, fun hrp => rfl⟩
    · intro msg o hcontra
      cases hp : Account.parseMessage msg with
      | ok m => simp [Account.sign, hp] at hcontra
      | error e =>
        have he := parseMessage_error_string msg e hp
        subst he
        simp [Account.sign, hp] at hcontra
    · intro sig msg o hcontra
      cases hp : Account.parseMessage msg with
      | ok m => simp [Account.verify, hp] at hcontra
      | error e =>
        have he := parseMessage_error_string msg e hp
        subst he
        simp [Account.verify, hp] at hcontra

/-- Witness for C9 at a concrete account keyring. -/
theorem c9_account_ctor_invariants_witness :
    Account.ctor (some demoAccountKeyring) = Except.ok demoAccount ∧
    (demoAccount.toAddress "sct").isSome = true :=
  ⟨rfl, (c9_account_ctor_invariants (some demoAccountKeyring) demoAccount
    rfl).2.2.2.2 "sct"⟩

/-- C10: the Wallet constructor hands every input without a truthy
chainKeyring field to fromArbitraryInput, so the constructor and
Wallet.create agree on every truthy input that fromArbitraryInput
recognizes, while an input with a truthy chainKeyring field is stored
directly. -/
theorem c10_wallet_ctor_create_agree :
    (∀ (input : WalletInput) (ct : Nat), input.chainKeyringField = none →
      Wallet.ctor input ct = Wallet.fromArbitraryInput input ct) ∧
    (∀ (input : WalletInput) (ct : Nat) (g : String) (w : Wallet),
      walletInputTruthy input = true →
      Wallet.fromArbitraryInput input ct = Except.ok w →
      Wallet.ctor input ct = Wallet.create g (some input) ct ∧
      Wallet.ctor input ct = Except.ok w) ∧
    (∀ (ck : ChainKeyring) (ct : Nat),
      Wallet.ctor (WalletInput.chainKeyringObj (some ck)) ct =
        Except.ok ⟨some ck⟩) := by
  refine ⟨?_, ?_, fun ck ct => rfl⟩
  · intro input ct h
    unfold Wallet.ctor
    rw [h]
  · intro input ct g w htru hok
    have hfield : input.chainKeyringField = none := by
      cases input with
      | str s => rfl
      | uint8array b => rfl
      | phraseRecord p => rfl
      | num n => rfl
      | nullV => rfl
      | chainKeyringObj c =>
        cases c with
        | none => rfl
        | some ck => simp [Wallet.fromArbitraryInput, jsTypeof] at hok
    constructor
    · simp [Wallet.ctor, Wallet.create, hfield, htru]
    · simp [Wallet.ctor, hfield, hok]

/-- Witness for C10 at a concrete hex-seed string input. -/
theorem c10_wallet_ctor_create_agree_witness :
    walletInputTruthy (WalletInput.str "deadbeef") = true ∧
    Wallet.fromArbitraryInput (WalletInput.str "deadbeef") 8888 =
      Except.ok (Wallet.fromSeed (SeedArg.str "deadbeef") 8888) ∧
    Wallet.ctor (WalletInput.str "deadbeef") 8888 =
      Wallet.create "fresh mnemonic" (some (WalletInput.str "deadbeef")) 8888 := by
  have hok : Wallet.fromArbitraryInput (WalletInput.str "deadbeef") 8888 =
      Except.ok (Wallet.fromSeed (SeedArg.str "deadbeef") 8888) := by decide
  have htru : walletInputTruthy (WalletInput.str "deadbeef") = true := by decide
  exact ⟨htru, hok, (c10_wallet_ctor_create_agree.2.1 (WalletInput.str "deadbeef") 8888
    "fresh mnemonic" (Wallet.fromSeed (SeedArg.str "deadbeef") 8888) htru hok).1⟩
